import Mathlib

/-!
A shallow embedding of the NYC-Taxi-Trip-Data-Analytics-Portal ETL pipeline
(`etl_pipeline.py`) and query API (`backend/main.py`).

Timestamps are modelled as epoch seconds (`Int`); monetary and distance
columns (FLOAT in the store) are modelled as rationals (`ℚ`), which is
faithful for the order comparisons and exact arithmetic the claims are
about.  SQL tables are lists of record rows; GROUP BY is modelled by
deduplicating the key column of the filtered rows and collecting each
key's group, and SQL NULL-producing aggregates return `Option`.
-/

namespace TaxiPortal

/-- SQL `AVG` over a group's column (groups produced by GROUP BY are
nonempty, so the empty case is never hit). -/
def avgQ (l : List ℚ) : ℚ := l.sum / (l.length : ℚ)

/-- SQL `AVG` over a column whose entries may be NULL (`AVG` ignores NULLs
and returns NULL when all entries are NULL). -/
def avgQopt (l : List ℚ) : Option ℚ :=
  if l.isEmpty then none else some (avgQ l)

/-- SQL `ROUND(x, 2)`. -/
def round2 (q : ℚ) : ℚ := (round (q * 100) : ℤ) / 100

/-- SQL `ROUND(x, 1)`. -/
def round1 (q : ℚ) : ℚ := (round (q * 10) : ℤ) / 10

/-- DuckDB `PERCENTILE_CONT(p) WITHIN GROUP (ORDER BY x)`: linear
interpolation between closest ranks of the sorted group values; NULL on an
empty group. -/
def percentileCont (p : ℚ) (l : List ℚ) : Option ℚ :=
  let s := l.insertionSort (· ≤ ·)
  if s.isEmpty then none
  else
    let n := s.length
    let rank : ℚ := p * ((n : ℚ) - 1)
    let lo : Nat := (⌊rank⌋).toNat
    let hi : Nat := min (lo + 1) (n - 1)
    let frac : ℚ := rank - (⌊rank⌋ : ℚ)
    some (s.getD lo 0 * (1 - frac) + s.getD hi 0 * frac)

/-! ## Dimension data (`dim_location`, `dim_payment_type`) -/

/-- One row of `dim_location` (zone lookup reference data). -/
structure Location where
  location_id : Int
  borough : String
  zone : String
  service_zone : String
deriving DecidableEq

/-- One row of `dim_payment_type`. -/
structure PaymentType where
  payment_type_id : Int
  payment_type_name : String
  is_card_payment : Bool
  allows_tip : Bool
deriving DecidableEq

/-- `SELECT location_id FROM dim_location WHERE borough = 'Manhattan'`
(the accepted-borough id set computed at the start of `load_trip_data`). -/
def manhattanZoneIds (dim_location : List Location) : List Int :=
  (dim_location.filter (fun l => l.borough = "Manhattan")).map (·.location_id)

/-- Primary-key lookup of a location id in `dim_location` (join semantics:
ids are unique, so a join match is the first row with that id). -/
def lookupLoc (dim_location : List Location) (lid : Int) : Option Location :=
  dim_location.find? (fun l => l.location_id = lid)

/-! ## Raw source rows and the fact table -/

/-- One raw record of a monthly parquet batch, with the source column
names used by the `INSERT INTO fact_trip` query. -/
structure RawTrip where
  VendorID : Int
  PULocationID : Int
  DOLocationID : Int
  payment_type : Int
  RatecodeID : Int
  tpep_pickup_datetime : Int
  tpep_dropoff_datetime : Int
  passenger_count : Int
  trip_distance : ℚ
  fare_amount : ℚ
  extra : ℚ
  mta_tax : ℚ
  tip_amount : ℚ
  tolls_amount : ℚ
  improvement_surcharge : ℚ
  total_amount : ℚ
  congestion_surcharge : ℚ
  airport_fee : ℚ
  store_and_fwd_flag : String
deriving DecidableEq

/-- One row of `fact_trip`. -/
structure FactRow where
  trip_id : Nat
  vendor_id : Int
  pu_location_id : Int
  do_location_id : Int
  payment_type_id : Int
  rate_code_id : Int
  pickup_datetime : Int
  dropoff_datetime : Int
  pickup_date : Int
  pickup_hour : Int
  pickup_day_of_week : Int
  is_weekend : Bool
  passenger_count : Int
  trip_distance : ℚ
  trip_duration_seconds : Int
  fare_amount : ℚ
  extra : ℚ
  mta_tax : ℚ
  tip_amount : ℚ
  tolls_amount : ℚ
  improvement_surcharge : ℚ
  total_amount : ℚ
  congestion_surcharge : ℚ
  airport_fee : ℚ
  cbd_congestion_fee : ℚ
  store_and_fwd_flag : String
deriving DecidableEq

/-- The `WHERE` clause of the fact-loader insert (lines 310–322 of
`etl_pipeline.py`): Manhattan-only pickup and dropoff plus the data
quality filters. -/
def acceptsRow (zoneIds : List Int) (r : RawTrip) : Bool :=
  decide (r.PULocationID ∈ zoneIds) &&
  decide (r.DOLocationID ∈ zoneIds) &&
  decide (0 < r.fare_amount) &&
  decide (r.fare_amount < 500) &&
  decide (0 < r.trip_distance) &&
  decide (r.trip_distance < 200) &&
  decide (1 ≤ r.passenger_count) &&
  decide (r.passenger_count ≤ 6) &&
  decide (r.tpep_pickup_datetime < r.tpep_dropoff_datetime) &&
  decide (r.tpep_dropoff_datetime - r.tpep_pickup_datetime < 7200)

/-- `EXTRACT(HOUR FROM t)` on an epoch-seconds timestamp. -/
def epochHour (t : Int) : Int := (t % 86400) / 3600

/-- `EXTRACT(DOW FROM t)` (0 = Sunday … 6 = Saturday); epoch day 0
(1970-01-01) was a Thursday, DOW 4. -/
def epochDow (t : Int) : Int := ((t / 86400) + 4) % 7

/-- `CAST(t AS DATE)` modelled as the epoch day number. -/
def epochDate (t : Int) : Int := t / 86400

/-- The `SELECT` projection of the fact-loader insert: derived temporal
attributes, duration in seconds, fare-field casts, and the assigned
surrogate `trip_id`. -/
def toFactRow (tid : Nat) (r : RawTrip) : FactRow :=
  { trip_id := tid
    vendor_id := r.VendorID
    pu_location_id := r.PULocationID
    do_location_id := r.DOLocationID
    payment_type_id := r.payment_type
    rate_code_id := r.RatecodeID
    pickup_datetime := r.tpep_pickup_datetime
    dropoff_datetime := r.tpep_dropoff_datetime
    pickup_date := epochDate r.tpep_pickup_datetime
    pickup_hour := epochHour r.tpep_pickup_datetime
    pickup_day_of_week := epochDow r.tpep_pickup_datetime
    is_weekend := epochDow r.tpep_pickup_datetime = 0 ∨ epochDow r.tpep_pickup_datetime = 6
    passenger_count := r.passenger_count
    trip_distance := r.trip_distance
    trip_duration_seconds := r.tpep_dropoff_datetime - r.tpep_pickup_datetime
    fare_amount := r.fare_amount
    extra := r.extra
    mta_tax := r.mta_tax
    tip_amount := r.tip_amount
    tolls_amount := r.tolls_amount
    improvement_surcharge := r.improvement_surcharge
    total_amount := r.total_amount
    congestion_surcharge := r.congestion_surcharge
    airport_fee := r.airport_fee
    cbd_congestion_fee := 0
    store_and_fwd_flag := r.store_and_fwd_flag }

/-- `ROW_NUMBER() OVER () + total_trips_loaded`: the accepted rows of a
batch receive consecutive surrogate ids starting at `start`. -/
def numberRows (start : Nat) : List RawTrip → List FactRow
  | [] => []
  | r :: rs => toFactRow start r :: numberRows (start + 1) rs

/-- Fact-loader running state: the fact table contents and the cumulative
filtered-row count (`total_trips_loaded` is recomputed from the table as
`SELECT COUNT(*) FROM fact_trip`, i.e. `facts.length`). -/
structure LoadState where
  facts : List FactRow
  totalFiltered : Nat
deriving DecidableEq

/-- One monthly batch: either its raw rows, or a batch-level read error. -/
abbrev Batch := Except String (List RawTrip)

/-- One iteration of the `load_trip_data` file loop: a failing batch is
logged and skipped (`continue`), a succeeding one appends its accepted
rows with surrogate ids offset by the current fact-table count. -/
def processBatch (zoneIds : List Int) (s : LoadState) (b : Batch) : LoadState :=
  match b with
  | .error _ => s
  | .ok rows =>
    let accepted := rows.filter (acceptsRow zoneIds)
    { facts := s.facts ++ numberRows (s.facts.length + 1) accepted
      totalFiltered := s.totalFiltered + (rows.length - accepted.length) }

/-- `load_trip_data`: fold the batch loop over all monthly files, starting
from an empty fact table. -/
def loadTripData (zoneIds : List Int) (batches : List Batch) : LoadState :=
  batches.foldl (processBatch zoneIds) ⟨[], 0⟩

/-- The acceptance filter read back off a fact row (§4.3 of the spec):
what the insert-time `WHERE` clause guarantees about every stored row. -/
def FactAccepted (zoneIds : List Int) (f : FactRow) : Prop :=
  f.pu_location_id ∈ zoneIds ∧ f.do_location_id ∈ zoneIds ∧
  0 < f.fare_amount ∧ f.fare_amount < 500 ∧
  0 < f.trip_distance ∧ f.trip_distance < 200 ∧
  1 ≤ f.passenger_count ∧ f.passenger_count ≤ 6 ∧
  f.pickup_datetime < f.dropoff_datetime ∧
  f.dropoff_datetime - f.pickup_datetime < 7200 ∧
  f.trip_duration_seconds = f.dropoff_datetime - f.pickup_datetime

instance (zoneIds : List Int) (f : FactRow) : Decidable (FactAccepted zoneIds f) := by
  unfold FactAccepted; infer_instance

/-! ## Materialized aggregates (`create_materialized_views`)

Each `CREATE TABLE IF NOT EXISTS mv_... AS SELECT` statement is split into
its `WHERE` predicate, its pure `GROUP BY` rollup over a fact-table
snapshot, and the create-if-missing table semantics. -/

/-- GROUP BY keys of the filtered source rows, in first-occurrence order. -/
def groupKeys {κ : Type} [DecidableEq κ] (key : FactRow → κ) (rows : List FactRow) :
    List κ :=
  (rows.map key).dedup

/-- `WHERE` clause of `mv_zone_pickup`. -/
def zonePickupWhere (r : FactRow) : Bool :=
  decide (0 < r.fare_amount) && decide (r.fare_amount < 500) &&
  decide (0 < r.trip_distance)

/-- One row of `mv_zone_pickup`. -/
structure ZonePickupRow where
  location_id : Int
  pickup_count : Nat
  avg_fare : ℚ
  avg_distance : ℚ
  avg_duration : ℚ
  median_fare : Option ℚ
deriving DecidableEq

/-- The rollup `mv_zone_pickup` materializes (MV 1). -/
def zonePickupRollup (fact : List FactRow) : List ZonePickupRow :=
  let src := fact.filter zonePickupWhere
  (groupKeys (·.pu_location_id) src).map (fun k =>
    let g := src.filter (fun r => r.pu_location_id = k)
    { location_id := k
      pickup_count := g.length
      avg_fare := avgQ (g.map (·.fare_amount))
      avg_distance := avgQ (g.map (·.trip_distance))
      avg_duration := avgQ (g.map (fun r => (r.trip_duration_seconds : ℚ)))
      median_fare := percentileCont (1/2) (g.map (·.fare_amount)) })

/-- `WHERE` clause of `mv_zone_dropoff`. -/
def zoneDropoffWhere (r : FactRow) : Bool :=
  decide (0 < r.fare_amount) && decide (r.fare_amount < 500) &&
  decide (0 < r.trip_distance)

/-- One row of `mv_zone_dropoff`. -/
structure ZoneDropoffRow where
  location_id : Int
  dropoff_count : Nat
  avg_fare : ℚ
  avg_distance : ℚ
deriving DecidableEq

/-- The rollup `mv_zone_dropoff` materializes (MV 2). -/
def zoneDropoffRollup (fact : List FactRow) : List ZoneDropoffRow :=
  let src := fact.filter zoneDropoffWhere
  (groupKeys (·.do_location_id) src).map (fun k =>
    let g := src.filter (fun r => r.do_location_id = k)
    { location_id := k
      dropoff_count := g.length
      avg_fare := avgQ (g.map (·.fare_amount))
      avg_distance := avgQ (g.map (·.trip_distance)) })

/-- `WHERE` clause of `mv_hourly_demand`. -/
def hourlyDemandWhere (r : FactRow) : Bool :=
  decide (0 < r.fare_amount)

/-- One row of `mv_hourly_demand`. -/
structure HourlyDemandRow where
  pickup_date : Int
  pickup_hour : Int
  pickup_day_of_week : Int
  is_weekend : Bool
  trip_count : Nat
  avg_fare : ℚ
  total_revenue : ℚ
  avg_distance : ℚ
  avg_passengers : ℚ
deriving DecidableEq

/-- The rollup `mv_hourly_demand` materializes (MV 3). -/
def hourlyDemandRollup (fact : List FactRow) : List HourlyDemandRow :=
  let src := fact.filter hourlyDemandWhere
  (groupKeys (fun r => (r.pickup_date, r.pickup_hour, r.pickup_day_of_week, r.is_weekend))
      src).map (fun k =>
    let g := src.filter (fun r =>
      (r.pickup_date, r.pickup_hour, r.pickup_day_of_week, r.is_weekend) = k)
    { pickup_date := k.1
      pickup_hour := k.2.1
      pickup_day_of_week := k.2.2.1
      is_weekend := k.2.2.2
      trip_count := g.length
      avg_fare := avgQ (g.map (·.fare_amount))
      total_revenue := (g.map (·.total_amount)).sum
      avg_distance := avgQ (g.map (·.trip_distance))
      avg_passengers := avgQ (g.map (fun r => (r.passenger_count : ℚ))) })

/-- `WHERE` clause of `mv_od_flows`. -/
def odFlowsWhere (r : FactRow) : Bool :=
  decide (0 < r.fare_amount) && decide (r.fare_amount < 500) &&
  decide (0 < r.trip_distance)

/-- One row of `mv_od_flows`. -/
structure ODFlowsRow where
  pu_location_id : Int
  do_location_id : Int
  trip_count : Nat
  avg_fare : ℚ
  avg_distance : ℚ
  avg_duration_sec : ℚ
  median_fare : Option ℚ
  p90_fare : Option ℚ
deriving DecidableEq

/-- The rollup `mv_od_flows` materializes (MV 4), including the
`HAVING COUNT(*) >= 100` group threshold. -/
def odFlowsRollup (fact : List FactRow) : List ODFlowsRow :=
  let src := fact.filter odFlowsWhere
  ((groupKeys (fun r => (r.pu_location_id, r.do_location_id)) src).map (fun k =>
    let g := src.filter (fun r => (r.pu_location_id, r.do_location_id) = k)
    { pu_location_id := k.1
      do_location_id := k.2
      trip_count := g.length
      avg_fare := avgQ (g.map (·.fare_amount))
      avg_distance := avgQ (g.map (·.trip_distance))
      avg_duration_sec := avgQ (g.map (fun r => (r.trip_duration_seconds : ℚ)))
      median_fare := percentileCont (1/2) (g.map (·.fare_amount))
      p90_fare := percentileCont (9/10) (g.map (·.fare_amount)) })).filter
    (fun row => decide (100 ≤ row.trip_count))

/-- `WHERE` clause of `mv_vendor_performance`. -/
def vendorPerformanceWhere (r : FactRow) : Bool :=
  decide (0 < r.fare_amount)

/-- One row of `mv_vendor_performance`. -/
structure VendorPerformanceRow where
  vendor_id : Int
  trip_count : Nat
  avg_fare : ℚ
  avg_tip : ℚ
  avg_distance : ℚ
  avg_duration_sec : ℚ
  store_fwd_count : Nat
  avg_passengers : ℚ
deriving DecidableEq

/-- The rollup `mv_vendor_performance` materializes (MV 5). -/
def vendorPerformanceRollup (fact : List FactRow) : List VendorPerformanceRow :=
  let src := fact.filter vendorPerformanceWhere
  (groupKeys (·.vendor_id) src).map (fun k =>
    let g := src.filter (fun r => r.vendor_id = k)
    { vendor_id := k
      trip_count := g.length
      avg_fare := avgQ (g.map (·.fare_amount))
      avg_tip := avgQ (g.map (·.tip_amount))
      avg_distance := avgQ (g.map (·.trip_distance))
      avg_duration_sec := avgQ (g.map (fun r => (r.trip_duration_seconds : ℚ)))
      store_fwd_count := (g.filter (fun r => r.store_and_fwd_flag = "Y")).length
      avg_passengers := avgQ (g.map (fun r => (r.passenger_count : ℚ))) })

/-- `WHERE` clause of `mv_payment_patterns`. -/
def paymentPatternsWhere (r : FactRow) : Bool :=
  decide (0 < r.fare_amount) && decide (r.fare_amount < 500)

/-- One row of `mv_payment_patterns`. -/
structure PaymentPatternsRow where
  payment_type_id : Int
  pickup_hour : Int
  is_weekend : Bool
  trip_count : Nat
  avg_tip : ℚ
  avg_fare : ℚ
  avg_tip_pct : Option ℚ
  trips_with_tip : Nat
  trips_no_tip : Nat
deriving DecidableEq

/-- The rollup `mv_payment_patterns` materializes (MV 6). -/
def paymentPatternsRollup (fact : List FactRow) : List PaymentPatternsRow :=
  let src := fact.filter paymentPatternsWhere
  (groupKeys (fun r => (r.payment_type_id, r.pickup_hour, r.is_weekend)) src).map
    (fun k =>
      let g := src.filter (fun r => (r.payment_type_id, r.pickup_hour, r.is_weekend) = k)
      let withTip := (g.filter (fun r => decide (0 < r.tip_amount))).length
      { payment_type_id := k.1
        pickup_hour := k.2.1
        is_weekend := k.2.2
        trip_count := g.length
        avg_tip := avgQ (g.map (·.tip_amount))
        avg_fare := avgQ (g.map (·.fare_amount))
        avg_tip_pct := avgQopt (g.filterMap (fun r =>
          if 0 < r.fare_amount then some (r.tip_amount / r.fare_amount * 100) else none))
        trips_with_tip := withTip
        trips_no_tip := g.length - withTip })

/-- The aggregate-table portion of the store: `none` means the table does
not exist yet. -/
structure MVState where
  mv_zone_pickup : Option (List ZonePickupRow)
  mv_zone_dropoff : Option (List ZoneDropoffRow)
  mv_hourly_demand : Option (List HourlyDemandRow)
  mv_od_flows : Option (List ODFlowsRow)
  mv_vendor_performance : Option (List VendorPerformanceRow)
  mv_payment_patterns : Option (List PaymentPatternsRow)
deriving DecidableEq

/-- `create_materialized_views`: each statement is
`CREATE TABLE IF NOT EXISTS ... AS SELECT ...`, so an existing aggregate
table is kept as is and a missing one is materialized from the current
fact table. -/
def createMaterializedViews (s : MVState) (fact : List FactRow) : MVState :=
  { mv_zone_pickup := some (s.mv_zone_pickup.getD (zonePickupRollup fact))
    mv_zone_dropoff := some (s.mv_zone_dropoff.getD (zoneDropoffRollup fact))
    mv_hourly_demand := some (s.mv_hourly_demand.getD (hourlyDemandRollup fact))
    mv_od_flows := some (s.mv_od_flows.getD (odFlowsRollup fact))
    mv_vendor_performance :=
      some (s.mv_vendor_performance.getD (vendorPerformanceRollup fact))
    mv_payment_patterns :=
      some (s.mv_payment_patterns.getD (paymentPatternsRollup fact)) }

/-! ## Summary statistics (`create_summary_statistics`) -/

/-- The single row of `summary_statistics`. -/
structure SummaryRow where
  metric_type : String
  total_trips : Nat
  total_fare_amount : ℚ
  total_tips : ℚ
  total_revenue : ℚ
  avg_fare : ℚ
  avg_distance : ℚ
  avg_duration : ℚ
  avg_passengers : ℚ
  first_trip_date : Option Int
  last_trip_date : Option Int
deriving DecidableEq

/-- The `SELECT` computed by `create_summary_statistics` over a fact-table
snapshot (its only filter is `WHERE fare_amount > 0`). -/
def summaryStatisticsRow (fact : List FactRow) : SummaryRow :=
  let g := fact.filter (fun r => decide (0 < r.fare_amount))
  { metric_type := "overall"
    total_trips := g.length
    total_fare_amount := (g.map (·.fare_amount)).sum
    total_tips := (g.map (·.tip_amount)).sum
    total_revenue := (g.map (·.total_amount)).sum
    avg_fare := avgQ (g.map (·.fare_amount))
    avg_distance := avgQ (g.map (·.trip_distance))
    avg_duration := avgQ (g.map (fun r => (r.trip_duration_seconds : ℚ)))
    avg_passengers := avgQ (g.map (fun r => (r.passenger_count : ℚ)))
    first_trip_date := (g.map (·.pickup_datetime)).min?
    last_trip_date := (g.map (·.pickup_datetime)).max? }

/-! ## Query API (`backend/main.py`)

Endpoints are functions from the parsed request to `Except Nat response`,
where the error carries the HTTP status code.  A raw `limit` query value
is modelled as `Option Int`: `none` stands for input the framework cannot
coerce to the declared `int` parameter type (rejected with 422 before the
handler runs), `some v` for a parsed integer handed to the handler. -/

/-- HTTP status codes in the 4xx range are client errors. -/
def isClientError (code : Nat) : Prop := 400 ≤ code ∧ code < 500

instance (code : Nat) : Decidable (isClientError code) := by
  unfold isClientError; infer_instance

/-- The read-only store the API queries. -/
structure ApiDB where
  dim_location : List Location
  dim_payment_type : List PaymentType
  fact_trip : List FactRow
  mv_zone_pickup : List ZonePickupRow
  mv_zone_dropoff : List ZoneDropoffRow
  mv_od_flows : List ODFlowsRow
deriving DecidableEq

/-- The shared handler guard on every limit-taking endpoint:
`if not isinstance(limit, int) or not (1 <= limit <= 1000)`
(after framework coercion the handler value is always an integer). -/
def limitValid (limit : Int) : Bool :=
  decide (1 ≤ limit) && decide (limit ≤ 1000)

/-- One response row of `/api/zones/top-pickup`. -/
structure TopPickupResp where
  zone : String
  borough : String
  pickup_count : Nat
  avg_fare : ℚ
  avg_distance : ℚ
  median_fare : Option ℚ
deriving DecidableEq

/-- `GET /api/zones/top-pickup`: validate the limit, then join
`mv_zone_pickup` with `dim_location`, keep Manhattan, order by pickup
count descending and truncate to the limit. -/
def getTopPickupZones (rawLimit : Option Int) (db : ApiDB) :
    Except Nat (List TopPickupResp) :=
  match rawLimit with
  | none => .error 422
  | some limit =>
    if limitValid limit then
      let joined := db.mv_zone_pickup.filterMap (fun z =>
        match lookupLoc db.dim_location z.location_id with
        | some l => if l.borough = "Manhattan" then some (z, l) else none
        | none => none)
      let sorted := joined.insertionSort (fun a b => b.1.pickup_count ≤ a.1.pickup_count)
      .ok ((sorted.take limit.toNat).map (fun p =>
        { zone := p.2.zone
          borough := p.2.borough
          pickup_count := p.1.pickup_count
          avg_fare := round2 p.1.avg_fare
          avg_distance := round2 p.1.avg_distance
          median_fare := p.1.median_fare.map round2 }))
    else .error 400

/-- One response row of `/api/zones/top-dropoff`. -/
structure TopDropoffResp where
  zone : String
  borough : String
  dropoff_count : Nat
  avg_fare : ℚ
  avg_distance : ℚ
deriving DecidableEq

/-- `GET /api/zones/top-dropoff`. -/
def getTopDropoffZones (rawLimit : Option Int) (db : ApiDB) :
    Except Nat (List TopDropoffResp) :=
  match rawLimit with
  | none => .error 422
  | some limit =>
    if limitValid limit then
      let joined := db.mv_zone_dropoff.filterMap (fun z =>
        match lookupLoc db.dim_location z.location_id with
        | some l => if l.borough = "Manhattan" then some (z, l) else none
        | none => none)
      let sorted := joined.insertionSort (fun a b => b.1.dropoff_count ≤ a.1.dropoff_count)
      .ok ((sorted.take limit.toNat).map (fun p =>
        { zone := p.2.zone
          borough := p.2.borough
          dropoff_count := p.1.dropoff_count
          avg_fare := round2 p.1.avg_fare
          avg_distance := round2 p.1.avg_distance }))
    else .error 400

/-- One response row of `/api/airport/top-origins`. -/
structure TopAirportOriginResp where
  zone : String
  airport_trip_count : Nat
  avg_fare : ℚ
  avg_distance : ℚ
deriving DecidableEq

/-- `GET /api/airport/top-origins`: fact rows joined to a Manhattan pickup
zone that are airport trips (rate code 2 or 3 or a positive airport fee)
with positive fare, grouped by zone with `HAVING COUNT(*) >= 10`, ordered
by count descending, truncated to the limit. -/
def getTopAirportOrigins (rawLimit : Option Int) (db : ApiDB) :
    Except Nat (List TopAirportOriginResp) :=
  match rawLimit with
  | none => .error 422
  | some limit =>
    if limitValid limit then
      let src := db.fact_trip.filterMap (fun t =>
        match lookupLoc db.dim_location t.pu_location_id with
        | some l =>
          if decide (l.borough = "Manhattan") &&
              (decide (t.rate_code_id = (2 : Int)) || decide (t.rate_code_id = (3 : Int)) ||
                decide ((0 : ℚ) < t.airport_fee)) &&
              decide ((0 : ℚ) < t.fare_amount) then
            some (t, l.zone)
          else none
        | none => none)
      let grouped := ((src.map (·.2)).dedup.map (fun z =>
        let g := (src.filter (fun p => p.2 = z)).map (·.1)
        { zone := z
          airport_trip_count := g.length
          avg_fare := round2 (avgQ (g.map (·.fare_amount)))
          avg_distance := round2 (avgQ (g.map (·.trip_distance)))
          : TopAirportOriginResp })).filter
        (fun row => decide (10 ≤ row.airport_trip_count))
      let sorted := grouped.insertionSort
        (fun a b => b.airport_trip_count ≤ a.airport_trip_count)
      .ok (sorted.take limit.toNat)
    else .error 400

/-- One response row of `/api/od-flows/top-routes`. -/
structure TopRouteResp where
  origin_zone : String
  destination_zone : String
  trip_count : Nat
  avg_fare : ℚ
  avg_distance : ℚ
  avg_duration_min : ℚ
deriving DecidableEq

/-- `GET /api/od-flows/top-routes`: `mv_od_flows` joined to Manhattan
pickup and dropoff zones, ordered by trip count descending. -/
def getTopRoutes (rawLimit : Option Int) (db : ApiDB) :
    Except Nat (List TopRouteResp) :=
  match rawLimit with
  | none => .error 422
  | some limit =>
    if limitValid limit then
      let joined := db.mv_od_flows.filterMap (fun od =>
        match lookupLoc db.dim_location od.pu_location_id,
            lookupLoc db.dim_location od.do_location_id with
        | some pu, some dr =>
          if pu.borough = "Manhattan" && dr.borough = "Manhattan" then
            some (od, pu.zone, dr.zone)
          else none
        | _, _ => none)
      let sorted := joined.insertionSort (fun a b => b.1.trip_count ≤ a.1.trip_count)
      .ok ((sorted.take limit.toNat).map (fun p =>
        { origin_zone := p.2.1
          destination_zone := p.2.2
          trip_count := p.1.trip_count
          avg_fare := round2 p.1.avg_fare
          avg_distance := round2 p.1.avg_distance
          avg_duration_min := round1 (p.1.avg_duration_sec / 60) }))
    else .error 400

/-- Fact rows of the high-fare-per-mile query joined to their pickup and
dropoff zones (the `FROM ... JOIN ... JOIN` of lines 598–610). -/
def highFareJoin (dim_location : List Location) (fact : List FactRow) :
    List (FactRow × Location × Location) :=
  fact.filterMap (fun t =>
    match lookupLoc dim_location t.pu_location_id,
        lookupLoc dim_location t.do_location_id with
    | some pu, some dr => some (t, pu, dr)
    | _, _ => none)

/-- The `WHERE` clause of the high-fare-per-mile query (lines 611–614). -/
def highFareWhere (t : FactRow) : Bool :=
  decide (0 < t.trip_distance) && decide (t.trip_distance < 100) &&
  decide (50 < t.fare_amount / t.trip_distance) && decide (t.fare_amount < 1000)

/-- The joined rows selected by the high-fare-per-mile query before
ordering and truncation. -/
def highFareSelected (dim_location : List Location) (fact : List FactRow) :
    List (FactRow × Location × Location) :=
  (highFareJoin dim_location fact).filter (fun p => highFareWhere p.1)

/-- The fact rows the high-fare-per-mile query returns (ordered by the
rounded fare-per-mile descending, truncated to the limit, projected back
to the underlying trip). -/
def highFarePerMileTrips (dim_location : List Location) (limit : Nat)
    (fact : List FactRow) : List FactRow :=
  (((highFareSelected dim_location fact).insertionSort (fun a b =>
      round2 (b.1.fare_amount / b.1.trip_distance) ≤
        round2 (a.1.fare_amount / a.1.trip_distance))).take limit).map (·.1)

/-- One response row of `/api/anomalies/high-fare-per-mile`. -/
structure HighFareResp where
  trip_id : Nat
  pickup_datetime : Int
  pickup_zone : String
  dropoff_zone : String
  fare_amount : ℚ
  trip_distance : ℚ
  fare_per_mile : ℚ
  duration_min : ℚ
deriving DecidableEq

/-- `GET /api/anomalies/high-fare-per-mile`. -/
def getHighFarePerMile (rawLimit : Option Int) (db : ApiDB) :
    Except Nat (List HighFareResp) :=
  match rawLimit with
  | none => .error 422
  | some limit =>
    if limitValid limit then
      let sorted := (highFareSelected db.dim_location db.fact_trip).insertionSort
        (fun a b => round2 (b.1.fare_amount / b.1.trip_distance) ≤
          round2 (a.1.fare_amount / a.1.trip_distance))
      .ok ((sorted.take limit.toNat).map (fun p =>
        { trip_id := p.1.trip_id
          pickup_datetime := p.1.pickup_datetime
          pickup_zone := p.2.1.zone
          dropoff_zone := p.2.2.zone
          fare_amount := round2 p.1.fare_amount
          trip_distance := round2 p.1.trip_distance
          fare_per_mile := round2 (p.1.fare_amount / p.1.trip_distance)
          duration_min := round1 ((p.1.trip_duration_seconds : ℚ) / 60) }))
    else .error 400

/-- The high-fare-per-mile anomaly condition of the summary endpoint
(lines 643–649; note: no `trip_distance < 100` bound here). -/
def anomalyHighFare (t : FactRow) : Bool :=
  decide (0 < t.trip_distance) &&
  decide (50 < t.fare_amount / t.trip_distance) && decide (t.fare_amount < 1000)

/-- The zero-tip-on-expensive-trip anomaly condition of the summary
endpoint (lines 652–659): fare above 50, zero tip, and the joined payment
type allows tips. -/
def anomalyNoTip (dim_payment_type : List PaymentType) (t : FactRow) : Bool :=
  match dim_payment_type.find? (fun p => p.payment_type_id = t.payment_type_id) with
  | some p => decide (50 < t.fare_amount) && decide (t.tip_amount = 0) && p.allows_tip
  | none => false

/-- Response of `/api/anomalies/summary`. -/
structure AnomalySummaryResp where
  total_trips : Nat
  high_fare_count : Nat
  high_fare_pct : ℚ
  no_tip_count : Nat
  no_tip_pct : ℚ
deriving DecidableEq

/-- `GET /api/anomalies/summary`: counts both anomaly types and divides
each by the total row count with no zero guard — on an empty fact table
the percentage division raises (ZeroDivisionError), which the framework
surfaces as a 500 server error; this is modelled by the explicit
zero-total branch. -/
def getAnomalySummary (db : ApiDB) : Except Nat AnomalySummaryResp :=
  let high_fare := (db.fact_trip.filter anomalyHighFare).length
  let no_tip := (db.fact_trip.filter (anomalyNoTip db.dim_payment_type)).length
  let total := db.fact_trip.length
  if total = 0 then .error 500
  else
    .ok { total_trips := total
          high_fare_count := high_fare
          high_fare_pct := round2 ((high_fare : ℚ) * 100 / (total : ℚ))
          no_tip_count := no_tip
          no_tip_pct := round2 ((no_tip : ℚ) * 100 / (total : ℚ)) }

/-! ## Concrete data used by witnesses -/

/-- A one-zone Manhattan location dimension. -/
def dimW : List Location := [⟨1, "Manhattan", "Zone A", "Yellow Zone"⟩]

/-- A raw trip that passes every acceptance-filter condition. -/
def validRowW : RawTrip :=
  { VendorID := 1, PULocationID := 1, DOLocationID := 1, payment_type := 1,
    RatecodeID := 1, tpep_pickup_datetime := 0, tpep_dropoff_datetime := 600,
    passenger_count := 1, trip_distance := 2, fare_amount := 20, extra := 1,
    mta_tax := 1/2, tip_amount := 3, tolls_amount := 0,
    improvement_surcharge := 1, total_amount := 25, congestion_surcharge := 5/2,
    airport_fee := 0, store_and_fwd_flag := "N" }

/-- A raw trip rejected by the filter: its fare is nonpositive. -/
def invalidRowW : RawTrip := { validRowW with fare_amount := 0 }

/-- A fully valid batch of 100 rows. -/
def validBatchW : List RawTrip := List.replicate 100 validRowW

/-- A fully invalid batch of 100 rows (all with nonpositive fares). -/
def invalidBatchW : List RawTrip := List.replicate 100 invalidRowW

/-! ## Fact-loader lemmas -/

lemma mem_numberRows {f : FactRow} :
    ∀ {s : Nat} {rows : List RawTrip}, f ∈ numberRows s rows →
      ∃ r ∈ rows, ∃ k, f = toFactRow k r := by
  intro s rows
  induction rows generalizing s with
  | nil => simp [numberRows]
  | cons r rs ih =>
    intro h
    rcases (by simpa [numberRows] using h : f = toFactRow s r ∨ f ∈ numberRows (s + 1) rs)
      with h' | h'
    · exact ⟨r, by simp, s, h'⟩
    · obtain ⟨r', hr', k, hk⟩ := ih h'
      exact ⟨r', by simp [hr'], k, hk⟩

lemma length_numberRows : ∀ (s : Nat) (rows : List RawTrip),
    (numberRows s rows).length = rows.length := by
  intro s rows
  induction rows generalizing s with
  | nil => rfl
  | cons r rs ih => simp [numberRows, ih]

lemma map_trip_id_numberRows : ∀ (s : Nat) (rows : List RawTrip),
    (numberRows s rows).map FactRow.trip_id = List.range' s rows.length := by
  intro s rows
  induction rows generalizing s with
  | nil => rfl
  | cons r rs ih => simp [numberRows, List.range'_succ, toFactRow, ih]

lemma toFactRow_accepted {m : List Int} {r : RawTrip} (k : Nat)
    (h : acceptsRow m r = true) : FactAccepted m (toFactRow k r) := by
  simp only [acceptsRow, Bool.and_eq_true, decide_eq_true_eq] at h
  obtain ⟨⟨⟨⟨⟨⟨⟨⟨⟨h1, h2⟩, h3⟩, h4⟩, h5⟩, h6⟩, h7⟩, h8⟩, h9⟩, h10⟩ := h
  exact ⟨h1, h2, h3, h4, h5, h6, h7, h8, h9, h10, rfl⟩

lemma factAccepted_processBatch (m : List Int) (s : LoadState) (b : Batch)
    (hs : ∀ f ∈ s.facts, FactAccepted m f) :
    ∀ f ∈ (processBatch m s b).facts, FactAccepted m f := by
  cases b with
  | error e => exact hs
  | ok rows =>
    intro f hf
    rcases List.mem_append.mp (by simpa [processBatch] using hf) with h | h
    · exact hs f h
    · obtain ⟨r, hr, k, rfl⟩ := mem_numberRows h
      exact toFactRow_accepted k (List.of_mem_filter hr)

lemma loadTripData_facts_accepted (m : List Int) (batches : List Batch) :
    ∀ f ∈ (loadTripData m batches).facts, FactAccepted m f := by
  suffices h : ∀ s : LoadState, (∀ f ∈ s.facts, FactAccepted m f) →
      ∀ f ∈ (batches.foldl (processBatch m) s).facts, FactAccepted m f by
    exact h ⟨[], 0⟩ (by simp)
  induction batches with
  | nil => intro s hs; simpa using hs
  | cons b bs ih =>
    intro s hs
    simpa only [List.foldl_cons] using ih _ (factAccepted_processBatch m s b hs)

lemma trip_ids_processBatch (m : List Int) (s : LoadState) (b : Batch)
    (hs : s.facts.map FactRow.trip_id = List.range' 1 s.facts.length) :
    (processBatch m s b).facts.map FactRow.trip_id =
      List.range' 1 (processBatch m s b).facts.length := by
  cases b with
  | error e => exact hs
  | ok rows =>
    simp only [processBatch, List.map_append, List.length_append, hs,
      map_trip_id_numberRows, length_numberRows]
    have h := List.range'_append 1 s.facts.length
      ((rows.filter (acceptsRow m)).length) 1
    simp only [Nat.one_mul] at h
    rw [Nat.add_comm 1 s.facts.length] at h
    rw [h, Nat.add_comm]

lemma loadTripData_trip_ids (m : List Int) (batches : List Batch) :
    (loadTripData m batches).facts.map FactRow.trip_id =
      List.range' 1 (loadTripData m batches).facts.length := by
  suffices h : ∀ s : LoadState,
      s.facts.map FactRow.trip_id = List.range' 1 s.facts.length →
      (batches.foldl (processBatch m) s).facts.map FactRow.trip_id =
        List.range' 1 (batches.foldl (processBatch m) s).facts.length by
    exact h ⟨[], 0⟩ rfl
  induction batches with
  | nil => intro s hs; simpa using hs
  | cons b bs ih =>
    intro s hs
    simpa only [List.foldl_cons] using ih _ (trip_ids_processBatch m s b hs)

/-! ## Claims about the fact loader -/

/-- C1: every row of the fact table produced by any run of the fact loader
satisfies, at insert time, all acceptance-filter conditions: both location
ids belong to the location dimension's Manhattan subset, fare in (0, 500),
distance in (0, 200), passenger count in [1, 6], pickup strictly before
dropoff, and duration (dropoff − pickup) under 7200 seconds; there is no
post-hoc cleanup, the rows are filtered before insertion. -/
theorem fact_table_satisfies_acceptance_filter (dim_location : List Location)
    (batches : List Batch) (f : FactRow)
    (hf : f ∈ (loadTripData (manhattanZoneIds dim_location) batches).facts) :
    FactAccepted (manhattanZoneIds dim_location) f :=
  loadTripData_facts_accepted (manhattanZoneIds dim_location) batches f hf

theorem fact_table_satisfies_acceptance_filter_wit :
    FactAccepted (manhattanZoneIds dimW) (toFactRow 1 validRowW) :=
  fact_table_satisfies_acceptance_filter dimW [.ok [validRowW]]
    (toFactRow 1 validRowW)
    (by rw [show (loadTripData (manhattanZoneIds dimW) [.ok [validRowW]]).facts
          = [toFactRow 1 validRowW] from rfl]; exact List.mem_singleton.mpr rfl)

/-- C2: after a full run of the fact loader over any number of input
batches, the surrogate trip identifiers of the accepted fact rows are
pairwise distinct (unique across the entire fact table). -/
theorem trip_ids_unique_across_run (zoneIds : List Int) (batches : List Batch) :
    ((loadTripData zoneIds batches).facts.map FactRow.trip_id).Nodup := by
  rw [loadTripData_trip_ids]
  exact List.nodup_range' _ _

set_option maxRecDepth 100000 in
/-- C5: a batch that raises an error is skipped and the loader continues
with the remaining batches, producing exactly the state it would have
produced without the failing batch (so the run never halts on a bad
batch); concretely, for one fully valid batch of 100 rows and one fully
invalid batch of 100 rows (all with nonpositive fares), exactly 100 rows
are accepted, the reported accepted count (the fact-table count) is 100,
and 100 rows are reported filtered. -/
theorem batch_error_isolated_and_scenario :
    (∀ (m : List Int) (pre post : List Batch) (e : String),
        loadTripData m (pre ++ Except.error e :: post) =
          loadTripData m (pre ++ post)) ∧
      (loadTripData (manhattanZoneIds dimW)
          [.ok validBatchW, .ok invalidBatchW]).facts.length = 100 ∧
      (loadTripData (manhattanZoneIds dimW)
          [.ok validBatchW, .ok invalidBatchW]).totalFiltered = 100 := by
  refine ⟨fun m pre post e => ?_, by decide, by decide⟩
  simp [loadTripData, List.foldl_append, processBatch]

/-! ## Claims about the aggregate and summary builders -/

/-- A one-row fact table of an accepted trip. -/
def factW1 : List FactRow := [toFactRow 1 validRowW]

/-- A 100-row fact table of accepted trips sharing one OD pair. -/
def factW100 : List FactRow := List.replicate 100 (toFactRow 1 validRowW)

/-- An aggregate-table row left over from an earlier build. -/
def staleZPRowW : ZonePickupRow := ⟨99, 1, 1, 1, 1, none⟩

/-- A store in which `mv_zone_pickup` already exists with stale content. -/
def staleMVStateW : MVState := ⟨some [staleZPRowW], none, none, none, none, none⟩

/-- A store in which no aggregate table exists yet. -/
def emptyMVStateW : MVState := ⟨none, none, none, none, none, none⟩

/-- C3 counterexample: the Aggregate Builder uses
`CREATE TABLE IF NOT EXISTS`, so running it against a store in which
`mv_zone_pickup` already exists (here: one stale row over an empty fact
table) leaves the stale table in place instead of recomputing the rollup
of the current fact table — the claimed replace-in-place recomputation
does not happen. -/
theorem aggregates_recomputed_every_run_cex :
    (createMaterializedViews staleMVStateW []).mv_zone_pickup ≠
      some (zonePickupRollup []) := by decide

/-- C3 amended: each aggregate table is built with create-if-missing
semantics — when it does not exist it is materialized as the defined
rollup of the current fact table, and when it exists it is left
unchanged; hence running the Aggregate Builder twice yields identical
aggregate tables (the second run is a no-op, not a recomputation). -/
theorem aggregates_built_if_missing_and_idempotent (s : MVState)
    (fact : List FactRow)
    (h1 : s.mv_zone_pickup = none) (h2 : s.mv_zone_dropoff = none)
    (h3 : s.mv_hourly_demand = none) (h4 : s.mv_od_flows = none)
    (h5 : s.mv_vendor_performance = none) (h6 : s.mv_payment_patterns = none) :
    createMaterializedViews s fact =
      ⟨some (zonePickupRollup fact), some (zoneDropoffRollup fact),
        some (hourlyDemandRollup fact), some (odFlowsRollup fact),
        some (vendorPerformanceRollup fact), some (paymentPatternsRollup fact)⟩ ∧
      createMaterializedViews (createMaterializedViews s fact) fact =
        createMaterializedViews s fact := by
  constructor
  · simp [createMaterializedViews, h1, h2, h3, h4, h5, h6]
  · simp [createMaterializedViews]

theorem aggregates_built_if_missing_and_idempotent_wit :
    createMaterializedViews emptyMVStateW [] =
      ⟨some (zonePickupRollup []), some (zoneDropoffRollup []),
        some (hourlyDemandRollup []), some (odFlowsRollup []),
        some (vendorPerformanceRollup []), some (paymentPatternsRollup [])⟩ ∧
      createMaterializedViews (createMaterializedViews emptyMVStateW []) [] =
        createMaterializedViews emptyMVStateW [] :=
  aggregates_built_if_missing_and_idempotent emptyMVStateW [] rfl rfl rfl rfl rfl rfl

/-- C6: run over a fact table every row of which satisfies the acceptance
filter, the Summary Builder's row has total trip count equal to the fact
table's row count, and its first/last trip timestamps equal the minimum
and maximum pickup timestamps over all fact rows — its only filter,
`fare_amount > 0`, excludes no accepted row. -/
theorem summary_matches_fact_table (zoneIds : List Int) (fact : List FactRow)
    (hacc : ∀ f ∈ fact, FactAccepted zoneIds f) :
    (summaryStatisticsRow fact).total_trips = fact.length ∧
      (summaryStatisticsRow fact).first_trip_date =
        (fact.map (·.pickup_datetime)).min? ∧
      (summaryStatisticsRow fact).last_trip_date =
        (fact.map (·.pickup_datetime)).max? := by
  have hfil : fact.filter (fun r => decide (0 < r.fare_amount)) = fact :=
    List.filter_eq_self.mpr (fun f hf => decide_eq_true (hacc f hf).2.2.1)
  refine ⟨?_, ?_, ?_⟩ <;> simp [summaryStatisticsRow, hfil]

theorem summary_matches_fact_table_wit :
    (summaryStatisticsRow factW1).total_trips = factW1.length ∧
      (summaryStatisticsRow factW1).first_trip_date =
        (factW1.map (·.pickup_datetime)).min? ∧
      (summaryStatisticsRow factW1).last_trip_date =
        (factW1.map (·.pickup_datetime)).max? :=
  summary_matches_fact_table (manhattanZoneIds dimW) factW1
    (by intro f hf
        simp only [factW1, List.mem_singleton] at hf
        subst hf; decide)

/-- Names for the six materialized aggregates. -/
inductive MV
  | zonePickup
  | zoneDropoff
  | hourlyDemand
  | odFlows
  | vendorPerformance
  | paymentPatterns
deriving DecidableEq

/-- The `WHERE` predicate each aggregate applies to fact rows. -/
def mvWhere : MV → FactRow → Bool
  | .zonePickup => zonePickupWhere
  | .zoneDropoff => zoneDropoffWhere
  | .hourlyDemand => hourlyDemandWhere
  | .odFlows => odFlowsWhere
  | .vendorPerformance => vendorPerformanceWhere
  | .paymentPatterns => paymentPatternsWhere

/-- Modelled from the spec: the fact loader's fare/distance sanity bounds
that C7 says every monetary aggregate reuses as its filter predicate
(fare amount in (0, 500) and distance > 0). -/
def fareSanityBounds (r : FactRow) : Bool :=
  decide (0 < r.fare_amount) && decide (r.fare_amount < 500) &&
  decide (0 < r.trip_distance)

/-- A fact row whose fare (600) violates the sanity bounds. -/
def overFareRowW : FactRow := { toFactRow 1 validRowW with fare_amount := 600 }

/-- C7 counterexample: `mv_hourly_demand` (a monetary aggregate: it
averages fares and sums revenue) filters only on `fare_amount > 0`, so a
row with fare 600 — outside the sanity bounds — passes its filter and
contributes a group to the aggregate. -/
theorem monetary_aggregate_filter_cex :
    mvWhere MV.hourlyDemand overFareRowW = true ∧
      fareSanityBounds overFareRowW = false ∧
      (hourlyDemandRollup [overFareRowW]).length = 1 := by decide

/-- C7 amended: all six aggregates require a positive fare; the zone
pickup, zone dropoff and OD-flow aggregates apply the full sanity bounds
(fare in (0, 500) and distance > 0); the payment-patterns aggregate adds
only `fare_amount < 500`; hourly demand and vendor performance filter on
`fare_amount > 0` alone. -/
theorem aggregate_filters_characterized (m : MV) (r : FactRow)
    (h : mvWhere m r = true) :
    0 < r.fare_amount ∧
      ((m = MV.zonePickup ∨ m = MV.zoneDropoff ∨ m = MV.odFlows) →
        r.fare_amount < 500 ∧ 0 < r.trip_distance) ∧
      (m = MV.paymentPatterns → r.fare_amount < 500) := by
  cases m <;>
    simp only [mvWhere, zonePickupWhere, zoneDropoffWhere, hourlyDemandWhere,
      odFlowsWhere, vendorPerformanceWhere, paymentPatternsWhere,
      Bool.and_eq_true, decide_eq_true_eq] at h <;>
    simp_all

theorem aggregate_filters_characterized_wit :
    0 < (toFactRow 1 validRowW).fare_amount ∧
      ((MV.zonePickup = MV.zonePickup ∨ MV.zonePickup = MV.zoneDropoff ∨
          MV.zonePickup = MV.odFlows) →
        (toFactRow 1 validRowW).fare_amount < 500 ∧
          0 < (toFactRow 1 validRowW).trip_distance) ∧
      (MV.zonePickup = MV.paymentPatterns →
        (toFactRow 1 validRowW).fare_amount < 500) :=
  aggregate_filters_characterized MV.zonePickup (toFactRow 1 validRowW) (by decide)

/-- C8: every row of the OD-pair aggregate as materialized by the
Aggregate Builder has an underlying trip count of at least 100 — the
`HAVING COUNT(*) >= 100` threshold removes every low-volume group. -/
theorem od_flows_min_trip_count (fact : List FactRow) (row : ODFlowsRow)
    (h : row ∈ odFlowsRollup fact) : 100 ≤ row.trip_count := by
  simp only [odFlowsRollup] at h
  rw [List.mem_filter] at h
  exact of_decide_eq_true h.2

/-- The OD-flows row the rollup produces from `factW100` (its single
group, keyed by the OD pair (1, 1)). -/
def odRowW : ODFlowsRow :=
  let src := factW100.filter odFlowsWhere
  let g := src.filter (fun r =>
    decide ((r.pu_location_id, r.do_location_id) = ((1 : Int), (1 : Int))))
  { pu_location_id := 1
    do_location_id := 1
    trip_count := g.length
    avg_fare := avgQ (g.map (·.fare_amount))
    avg_distance := avgQ (g.map (·.trip_distance))
    avg_duration_sec := avgQ (g.map (fun r => (r.trip_duration_seconds : ℚ)))
    median_fare := percentileCont (1/2) (g.map (·.fare_amount))
    p90_fare := percentileCont (9/10) (g.map (·.fare_amount)) }

set_option maxRecDepth 100000 in
theorem od_flows_min_trip_count_wit :
    odRowW ∈ odFlowsRollup factW100 ∧ 100 ≤ odRowW.trip_count := by
  have hkeys : groupKeys (fun r => (r.pu_location_id, r.do_location_id))
      (factW100.filter odFlowsWhere) = [((1 : Int), (1 : Int))] := by decide
  have hmem : odRowW ∈ odFlowsRollup factW100 := by
    simp only [odFlowsRollup, hkeys, List.map_cons, List.map_nil]
    exact List.mem_filter.mpr ⟨List.mem_singleton.mpr rfl, by decide⟩
  exact ⟨hmem, od_flows_min_trip_count factW100 odRowW hmem⟩

/-! ## Claims about the query API -/

/-- The payment-type dimension as loaded by `load_dimensions`
(`etl_pipeline.py` lines 211–219). -/
def paymentTypesW : List PaymentType :=
  [⟨0, "Unknown", false, false⟩, ⟨1, "Credit card", true, true⟩,
    ⟨2, "Cash", false, false⟩, ⟨3, "No charge", false, false⟩,
    ⟨4, "Dispute", false, false⟩, ⟨5, "Unknown", false, false⟩]

/-- A store with an empty fact table. -/
def emptyDbW : ApiDB := ⟨dimW, paymentTypesW, [], [], [], []⟩

/-- A store with a one-row fact table. -/
def oneTripDbW : ApiDB := ⟨dimW, paymentTypesW, factW1, [], [], []⟩

/-- C4: on each of the five limit-taking endpoints, an integer limit
outside [1, 1000] is rejected with a 400 client error (independently of
the store, i.e. before any query runs), a non-integer limit input is
rejected by parameter coercion with a 422 client error, both statuses are
client errors, and limits 1 and 1000 are accepted: the handler runs its
query and returns a success response. -/
theorem limit_param_validation (db : ApiDB) (v : Int) (hv : v < 1 ∨ 1000 < v) :
    (getTopPickupZones (some v) db = .error 400 ∧
      getTopDropoffZones (some v) db = .error 400 ∧
      getTopAirportOrigins (some v) db = .error 400 ∧
      getTopRoutes (some v) db = .error 400 ∧
      getHighFarePerMile (some v) db = .error 400) ∧
    (getTopPickupZones none db = .error 422 ∧
      getTopDropoffZones none db = .error 422 ∧
      getTopAirportOrigins none db = .error 422 ∧
      getTopRoutes none db = .error 422 ∧
      getHighFarePerMile none db = .error 422) ∧
    (isClientError 400 ∧ isClientError 422) ∧
    ((∃ r, getTopPickupZones (some 1) db = .ok r) ∧
      (∃ r, getTopDropoffZones (some 1) db = .ok r) ∧
      (∃ r, getTopAirportOrigins (some 1) db = .ok r) ∧
      (∃ r, getTopRoutes (some 1) db = .ok r) ∧
      (∃ r, getHighFarePerMile (some 1) db = .ok r)) ∧
    ((∃ r, getTopPickupZones (some 1000) db = .ok r) ∧
      (∃ r, getTopDropoffZones (some 1000) db = .ok r) ∧
      (∃ r, getTopAirportOrigins (some 1000) db = .ok r) ∧
      (∃ r, getTopRoutes (some 1000) db = .ok r) ∧
      (∃ r, getHighFarePerMile (some 1000) db = .ok r)) := by
  have hbad : limitValid v = false := by
    simp only [limitValid, Bool.and_eq_false_iff, decide_eq_false_iff_not]
    omega
  refine ⟨⟨?_, ?_, ?_, ?_, ?_⟩, ⟨rfl, rfl, rfl, rfl, rfl⟩, ⟨by decide, by decide⟩,
      ⟨⟨_, rfl⟩, ⟨_, rfl⟩, ⟨_, rfl⟩, ⟨_, rfl⟩, ⟨_, rfl⟩⟩,
      ⟨⟨_, rfl⟩, ⟨_, rfl⟩, ⟨_, rfl⟩, ⟨_, rfl⟩, ⟨_, rfl⟩⟩⟩ <;>
    simp [getTopPickupZones, getTopDropoffZones, getTopAirportOrigins,
      getTopRoutes, getHighFarePerMile, hbad]

theorem limit_param_validation_wit :
    getTopPickupZones (some 0) emptyDbW = .error 400 ∧
      getHighFarePerMile (some 1001) emptyDbW = .error 400 :=
  ⟨((limit_param_validation emptyDbW 0 (Or.inl (by decide))).1).1,
    ((limit_param_validation emptyDbW 1001 (Or.inr (by decide))).1).2.2.2.2⟩

/-- A fact-table row with a negative recorded distance: its fare-per-mile
ratio exceeds 50 and its fare is below 1000, yet the query's
`trip_distance > 0` condition excludes it. -/
def negDistRowW : FactRow :=
  { toFactRow 1 validRowW with trip_distance := -1, fare_amount := -100 }

/-- C9 counterexample: the claim quantifies over fact tables and requires
only `fare_amount / trip_distance > 50` and `fare_amount < 1000`; for a
stored row with distance −1 and fare −100 the ratio is 100 > 50 and the
fare is below 1000, yet the high-fare-per-mile query returns nothing,
because its `WHERE` clause also requires a positive distance. -/
theorem high_fare_query_cex :
    50 < negDistRowW.fare_amount / negDistRowW.trip_distance ∧
      negDistRowW.fare_amount < 1000 ∧
      negDistRowW ∈ [negDistRowW] ∧
      highFarePerMileTrips dimW 100 [negDistRowW] = [] := by
  refine ⟨show (50 : ℚ) < (-100) / (-1) by norm_num, by decide, by simp, by decide⟩

/-- C9 amended: for a trip of the fact table whose pickup and dropoff
locations resolve in the location dimension, whose distance is positive,
whose fare-per-mile ratio exceeds 50 and whose fare is below 1000, the
high-fare-per-mile query returns the trip whenever the number of
selected anomalies fits inside the requested limit (the `WHERE` clause's
`trip_distance < 100` is implied by these conditions); and no trip whose
ratio is not above 50 is ever returned. -/
theorem high_fare_query_membership (locs : List Location) (limit : Nat)
    (fact : List FactRow) (t : FactRow) (ht : t ∈ fact)
    (hpu : (lookupLoc locs t.pu_location_id).isSome)
    (hdo : (lookupLoc locs t.do_location_id).isSome)
    (hdist : 0 < t.trip_distance)
    (hratio : 50 < t.fare_amount / t.trip_distance)
    (hfare : t.fare_amount < 1000)
    (hlen : (highFareSelected locs fact).length ≤ limit) :
    t ∈ highFarePerMileTrips locs limit fact ∧
      ∀ u ∈ fact, ¬ (50 < u.fare_amount / u.trip_distance) →
        u ∉ highFarePerMileTrips locs limit fact := by
  constructor
  · obtain ⟨pu, hpu'⟩ := Option.isSome_iff_exists.mp hpu
    obtain ⟨dr, hdo'⟩ := Option.isSome_iff_exists.mp hdo
    have hmul : 50 * t.trip_distance < t.fare_amount :=
      (lt_div_iff₀ hdist).mp hratio
    have hd100 : t.trip_distance < 100 := by linarith
    have hwhere : highFareWhere t = true := by
      simp only [highFareWhere, Bool.and_eq_true, decide_eq_true_eq]
      exact ⟨⟨⟨hdist, hd100⟩, hratio⟩, hfare⟩
    have hjoin : (t, pu, dr) ∈ highFareJoin locs fact := by
      refine List.mem_filterMap.mpr ⟨t, ht, ?_⟩
      rw [hpu', hdo']
    have hsel : (t, pu, dr) ∈ highFareSelected locs fact :=
      List.mem_filter.mpr ⟨hjoin, hwhere⟩
    have hsort : (t, pu, dr) ∈ (highFareSelected locs fact).insertionSort
        (fun a b => round2 (b.1.fare_amount / b.1.trip_distance) ≤
          round2 (a.1.fare_amount / a.1.trip_distance)) :=
      (List.mem_insertionSort _).mpr hsel
    have hlen' : ((highFareSelected locs fact).insertionSort
        (fun a b => round2 (b.1.fare_amount / b.1.trip_distance) ≤
          round2 (a.1.fare_amount / a.1.trip_distance))).length ≤ limit := by
      rwa [List.length_insertionSort]
    rw [highFarePerMileTrips, List.take_of_length_le hlen']
    exact List.mem_map_of_mem _ hsort
  · intro u hu hnot hmem
    obtain ⟨p, hp, hpu1⟩ := List.mem_map.mp hmem
    have hp' : p ∈ highFareSelected locs fact :=
      (List.mem_insertionSort _).mp (List.take_subset _ _ hp)
    have hw := List.of_mem_filter hp'
    simp only [highFareWhere, Bool.and_eq_true, decide_eq_true_eq] at hw
    exact hnot (hpu1 ▸ hw.1.2)

/-- A trip with fare-per-mile ratio 200 (anomalous). -/
def ratioRowW : FactRow :=
  { toFactRow 1 validRowW with fare_amount := 200, trip_distance := 1 }

/-- A trip with fare-per-mile ratio 10 (within the normal range). -/
def normalRowW : FactRow :=
  { toFactRow 2 validRowW with fare_amount := 10, trip_distance := 1 }

/-- The two-trip fact table of the end-to-end scenario. -/
def factC9W : List FactRow := [ratioRowW, normalRowW]

theorem high_fare_query_membership_wit :
    ratioRowW ∈ highFarePerMileTrips dimW 100 factC9W ∧
      normalRowW ∉ highFarePerMileTrips dimW 100 factC9W := by
  have hlen : (highFareSelected dimW factC9W).length ≤ 100 :=
    le_trans (List.length_filter_le _ _)
      (le_trans (List.length_filterMap_le _ _) (by decide))
  have h := high_fare_query_membership dimW 100 factC9W ratioRowW
    (by simp [factC9W]) (by decide) (by decide) (by decide)
    (show (50 : ℚ) < 200 / 1 by norm_num) (by decide) hlen
  exact ⟨h.1, h.2 normalRowW (by simp [factC9W])
    (show ¬ ((50 : ℚ) < 10 / 1) by norm_num)⟩

/-- C10: the anomaly-count summary endpoint divides both anomaly counts
by the fact table's total row count with no guard, so on an empty fact
table it fails with a 500 server error (the unguarded division raises)
instead of returning a structured zero-count response; on every non-empty
fact table it returns the total trip count together with the count and
rounded percentage of each of the two anomaly types. -/
theorem anomaly_summary_behavior (db : ApiDB) :
    (db.fact_trip = [] → getAnomalySummary db = .error 500) ∧
      (db.fact_trip ≠ [] →
        getAnomalySummary db = .ok
          { total_trips := db.fact_trip.length
            high_fare_count := (db.fact_trip.filter anomalyHighFare).length
            high_fare_pct := round2
              (((db.fact_trip.filter anomalyHighFare).length : ℚ) * 100 /
                (db.fact_trip.length : ℚ))
            no_tip_count :=
              (db.fact_trip.filter (anomalyNoTip db.dim_payment_type)).length
            no_tip_pct := round2
              (((db.fact_trip.filter (anomalyNoTip db.dim_payment_type)).length : ℚ)
                * 100 / (db.fact_trip.length : ℚ)) }) := by
  constructor
  · intro h
    simp [getAnomalySummary, h]
  · intro h
    simp [getAnomalySummary, List.length_eq_zero, h]

theorem anomaly_summary_behavior_wit :
    getAnomalySummary emptyDbW = .error 500 ∧
      getAnomalySummary oneTripDbW = .ok
        { total_trips := oneTripDbW.fact_trip.length
          high_fare_count := (oneTripDbW.fact_trip.filter anomalyHighFare).length
          high_fare_pct := round2
            (((oneTripDbW.fact_trip.filter anomalyHighFare).length : ℚ) * 100 /
              (oneTripDbW.fact_trip.length : ℚ))
          no_tip_count :=
            (oneTripDbW.fact_trip.filter
              (anomalyNoTip oneTripDbW.dim_payment_type)).length
          no_tip_pct := round2
            (((oneTripDbW.fact_trip.filter
                (anomalyNoTip oneTripDbW.dim_payment_type)).length : ℚ)
              * 100 / (oneTripDbW.fact_trip.length : ℚ)) } :=
  ⟨(anomaly_summary_behavior emptyDbW).1 rfl,
    (anomaly_summary_behavior oneTripDbW).2 (by decide)⟩

end TaxiPortal
